import Mathlib

/-!
Verification of the Code Comment Generator application (`app.py`).

The program is a single-page Streamlit application: it collects a code
snippet from a text area, builds a fixed instructional prompt around it,
and submits one synchronous call to the Gemini text-generation service,
rendering the returned text (or an error message) in the page.

The shallow embedding below models:
  * `generate_prompt`    - the fixed prompt template with the snippet
                           interpolated at a fixed position;
  * `load_models`        - credential lookup and model construction,
                           returning `none` on a missing or empty key;
  * `get_gemini_response`- the orchestrator: builds the prompt, loads the
                           model, issues at most one remote call with a
                           fixed safety policy, and catches every
                           exception of the remote call;
  * `generative_config`  - the creativity radio mapped to a temperature;
  * `user_input`         - the bounded text area (max_chars = 2000);
  * `button_press` and `main_press` - one button activation of `main`:
                           the progress loop that issues the call at
                           step 98 and the rendering of the result.

External effects (the secret store and the remote service) are an
explicit environment `Env`; machine observations (the value returned,
the remote calls issued with their arguments, the error messages shown
with `st.error`) are recorded in a `CallOutcome` trace.
-/

namespace CodeCommentGen

/-- The apostrophe character (code point 39), used inside the prompt text. -/
def apos : String := String.singleton (Char.ofNat 39)

/-- The fixed instructional text of the prompt template that precedes the
snippet in `generate_prompt` (the body of the f-string before `{code}`,
whitespace included). -/
def prompt_intro : String :=
  "\n    You are an AI code comment generator for multiple languages. Validate that provided code snippets are valid code snippets and no malicious code. If not valid, ask for a valid snippet. Identify language if not provided. Use appropriate comment syntax. Break code into logical sections, comment each section"
  ++ apos ++
  "s functionality. \n    For functions/methods, comment:\n\n    - Purpose\n    - Input parameters\n    - Return values\n    - Potential effects/exceptions\n\n    Briefly explain the algorithms, data structures, and patterns used. Avoid redundancy but provide enough context for unfamiliar readers. Maintain a professional, helpful tone. Address issues/clarifications respectfully.\n\n    You should not generate any new code yourself, but rather understand and comment on the provided code snippet.\n\n    Here is the code snippet for which code comments need to be generated: \n\n"

/-- The text of the prompt template that follows the snippet (the tail of
the f-string after `{code}`: a newline and the closing indentation). -/
def prompt_tail : String := "\n    "

/-- The fixed instructional preamble of the prompt: everything of the
template before the interpolated snippet. -/
def instructional_preamble : String := prompt_intro

/-- `generate_prompt(code)` from `app.py`: renders the fixed template with
the snippet interpolated verbatim between `prompt_intro` and
`prompt_tail`. -/
def generate_prompt (code : String) : String :=
  prompt_intro ++ code ++ prompt_tail

/-- The four harm categories of `google.generativeai.types.HarmCategory`
used by the application. -/
inductive HarmCategory
  | harassment
  | hateSpeech
  | sexuallyExplicit
  | dangerousContent
  deriving DecidableEq

/-- Blocking thresholds of `google.generativeai.types.HarmBlockThreshold`. -/
inductive HarmBlockThreshold
  | blockNone
  | blockOnlyHigh
  | blockMediumAndAbove
  | blockLowAndAbove
  deriving DecidableEq

/-- The `safety_settings` dictionary built inside `get_gemini_response`:
each of the four harm categories is mapped to `BLOCK_NONE`. -/
def safety_settings : List (HarmCategory × HarmBlockThreshold) :=
  [ (HarmCategory.harassment, HarmBlockThreshold.blockNone)
  , (HarmCategory.hateSpeech, HarmBlockThreshold.blockNone)
  , (HarmCategory.sexuallyExplicit, HarmBlockThreshold.blockNone)
  , (HarmCategory.dangerousContent, HarmBlockThreshold.blockNone) ]

/-- The generation-configuration dictionary returned by
`generative_config`: a sampling temperature and an output-token bound.
Temperatures are exact rationals (`0.30` and `0.95` in the source). -/
structure GenerationConfig where
  temperature : ℚ
  max_output_tokens : ℕ
  deriving DecidableEq

/-- `generative_config()` from `app.py`, as a function of the value of the
creativity radio widget (whose options are `"Low"` and `"High"`): the
temperature is `0.30` when the selection is `"Low"` and `0.95` otherwise,
and `max_output_tokens` is the constant `2048`. -/
def generative_config (creative_control : String) : GenerationConfig :=
  { temperature := if creative_control = "Low" then 0.30 else 0.95
  , max_output_tokens := 2048 }

/-- `user_input()` from `app.py`: the text area is created with
`max_chars = 2000`, so the widget caps the entered text at 2000
characters; the snippet it hands back is the typed text truncated to that
bound (modelling the Streamlit `st.text_area` max_chars contract). -/
def user_input (typed : String) : String :=
  String.mk (typed.data.take 2000)

/-- The external world of one run: the secret store and the remote
service.  `google_api_key` is `none` when the key is absent from
`secrets.toml` (a `KeyError` in the source) and `some s` when present
with value `s`.  `configure_error` is `some e` when
`genai.configure`/`GenerativeModel` raises with message `e`.
`generate_content` gives the behaviour of
`model.generate_content(...).text` for given arguments: `.ok t` when the
call succeeds with payload `t`, `.error e` when it raises with message
`e`. -/
structure Env where
  google_api_key : Option String
  configure_error : Option String
  generate_content :
    String → GenerationConfig → List (HarmCategory × HarmBlockThreshold) →
      Except String String

/-- `load_models()` from `app.py`.  Returns `(handle?, errors)`: `some ()`
when the model handle was constructed, `none` on failure, together with
the `st.error` messages shown.  The source reads the key (a `KeyError`
when absent), treats an empty key as fatal, then configures and builds
the model inside a `try` whose `except Exception` branch also returns
`None`. -/
def load_models (env : Env) : Option Unit × List String :=
  match env.google_api_key with
  | none =>
      (none, ["API key not found in secrets.toml. Please check your secrets configuration."])
  | some k =>
      if k = "" then
        (none, ["API key is empty. Please check your secrets.toml file."])
      else
        match env.configure_error with
        | some e => (none, ["An error occurred: " ++ e])
        | none => (some (), [])

/-- One remote call issued to `model.generate_content`, with the
arguments the source passes: the prompt, the generation configuration and
the safety settings. -/
structure RemoteCall where
  prompt : String
  generation_config : GenerationConfig
  safety : List (HarmCategory × HarmBlockThreshold)
  deriving DecidableEq

/-- The observable outcome of one `get_gemini_response` invocation:
`ret` is the Python return value (`none` for `None`), `remoteCalls` the
list of calls issued to the remote service, and `errorsShown` the
messages displayed with `st.error`. -/
structure CallOutcome where
  ret : Option String
  remoteCalls : List RemoteCall
  errorsShown : List String
  deriving DecidableEq

/-- The fixed string `get_gemini_response` returns when `load_models`
yields no model. -/
def model_not_loaded_msg : String :=
  "Model not loaded properly. Check your API key and configuration."

/-- `get_gemini_response(code, config)` from `app.py`: builds the prompt,
builds the fixed `safety_settings`, loads the model; with a model it
issues one `generate_content` call and returns `response.text`, without
one it returns the fixed `model_not_loaded_msg` string; any exception of
the remote call is caught, reported via `st.error`, and turned into a
`None` return. -/
def get_gemini_response (env : Env) (code : String) (config : GenerationConfig) :
    CallOutcome :=
  let prompt := generate_prompt code
  match load_models env with
  | (some _, errs) =>
      let call : RemoteCall :=
        { prompt := prompt, generation_config := config, safety := safety_settings }
      match env.generate_content prompt config safety_settings with
      | Except.ok text =>
          { ret := some text, remoteCalls := [call], errorsShown := errs }
      | Except.error e =>
          { ret := none, remoteCalls := [call]
          , errorsShown := errs ++ ["An error occurred: " ++ e] }
  | (none, errs) =>
      { ret := some model_not_loaded_msg, remoteCalls := [], errorsShown := errs }

/-- The two action buttons of `main`. -/
inductive Mode
  | comment
  | explain
  deriving DecidableEq

/-- The prompt `main` submits for a given mode: both the
"Generate Code Comments" branch and the "Explain Line by Line" branch of
`main` call `get_gemini_response(user_input_text, config)`, which builds
`generate_prompt(code)`; no separate explain template exists in the
source. -/
def prompt_submitted (m : Mode) (code : String) : String :=
  match m with
  | Mode.comment => generate_prompt code
  | Mode.explain => generate_prompt code

/-- One activated button of `main`: the progress loop
`for percent_complete in range(100)` starts with `response = None` and
assigns `response = get_gemini_response(...)` exactly when
`percent_complete == 98`.  Returns the final `response` together with the
number of `get_gemini_response` invocations made. -/
def button_press (env : Env) (snippet : String) (config : GenerationConfig) :
    Option CallOutcome × ℕ :=
  (List.range 100).foldl
    (fun acc i =>
      if i = 98 then (some (get_gemini_response env snippet config), acc.2 + 1) else acc)
    (none, 0)

/-- What `main` renders in the response placeholder after a press:
nothing when the response is `None`, otherwise the mode-specific
subheader together with the response text, written unchanged. -/
def render (m : Mode) (response : Option String) : Option (String × String) :=
  match response with
  | none => none
  | some r =>
      some (if m = Mode.comment then "The Response is" else "The Line-by-Line Explanation is", r)

/-- The observable result of one button activation inside `main`. -/
structure MainResult where
  snippet : String
  attempts : ℕ
  outcome : Option CallOutcome
  rendered : Option (String × String)
  deriving DecidableEq

/-- One button activation of `main()`: the snippet comes from
`user_input()`, the configuration from `generative_config()`, the call is
made by the progress loop, and the result is rendered when the returned
response is not `None`. -/
def main_press (env : Env) (m : Mode) (typed : String) (creative_control : String) :
    MainResult :=
  let snippet := user_input typed
  let config := generative_config creative_control
  let p := button_press env snippet config
  { snippet := snippet
  , attempts := p.2
  , outcome := p.1
  , rendered :=
      match p.1 with
      | none => none
      | some o => render m o.ret }

end CodeCommentGen

namespace CodeCommentGen

/-- C1: For every snippet `S`, the prompt constructed for a COMMENT-mode
generation contains `S` verbatim as a contiguous substring and contains
the fixed instructional preamble text unchanged. -/
theorem C1_prompt_contains_snippet_and_preamble (code : String) :
    (∃ a b, generate_prompt code = a ++ code ++ b) ∧
    (∃ a b, generate_prompt code = a ++ instructional_preamble ++ b) := by
  constructor
  · exact ⟨prompt_intro, prompt_tail, rfl⟩
  · refine ⟨"", code ++ prompt_tail, ?_⟩
    have h0 : ("" : String) ++ instructional_preamble = instructional_preamble := rfl
    rw [h0, ← String.append_assoc]
    rfl

/-- C2: The generation configuration maps creativity Low to temperature
0.30 and High to 0.95, and sets `max_output_tokens` to 2048 regardless of
the selection. -/
theorem C2_generative_config_mapping (creative_control : String) :
    (generative_config "Low").temperature = 0.30 ∧
    (generative_config "High").temperature = 0.95 ∧
    (generative_config creative_control).max_output_tokens = 2048 :=
  ⟨by simp [generative_config], by simp [generative_config], rfl⟩

end CodeCommentGen

namespace CodeCommentGen

/-- An environment whose secret store has no `GOOGLE_API_KEY` entry. -/
def env_no_key : Env :=
  { google_api_key := none
  , configure_error := none
  , generate_content := fun _ _ _ => Except.ok "unused" }

/-- An environment with a valid key whose remote call succeeds with the
fixed payload `"payload"`. -/
def env_ok : Env :=
  { google_api_key := some "k"
  , configure_error := none
  , generate_content := fun _ _ _ => Except.ok "payload" }

/-- An environment with a valid key whose remote call raises with message
`"boom"`. -/
def env_raises : Env :=
  { google_api_key := some "k"
  , configure_error := none
  , generate_content := fun _ _ _ => Except.error "boom" }

/-- The configuration produced by a Low creativity selection. -/
def cfg_low : GenerationConfig := generative_config "Low"

/-- C3: If the API credential is absent or empty, `get_gemini_response`
reports failure (the fixed failure string is returned, an error was shown
to the user) and the remote `generate_content` call is never issued. -/
theorem C3_missing_credential_no_remote_call
    (env : Env) (code : String) (config : GenerationConfig)
    (h : env.google_api_key = none ∨ env.google_api_key = some "") :
    (get_gemini_response env code config).remoteCalls = [] ∧
    (get_gemini_response env code config).ret = some model_not_loaded_msg ∧
    (get_gemini_response env code config).errorsShown ≠ [] := by
  rcases h with h | h <;>
    simp [get_gemini_response, load_models, h]

/-- Witness for C3 at the concrete environment with no key. -/
theorem C3_missing_credential_no_remote_call_witness :
    (env_no_key.google_api_key = none ∨ env_no_key.google_api_key = some "") ∧
    ((get_gemini_response env_no_key "x" cfg_low).remoteCalls = [] ∧
     (get_gemini_response env_no_key "x" cfg_low).ret = some model_not_loaded_msg ∧
     (get_gemini_response env_no_key "x" cfg_low).errorsShown ≠ []) :=
  ⟨Or.inl rfl,
   C3_missing_credential_no_remote_call env_no_key "x" cfg_low (Or.inl rfl)⟩

/-- C4: If the remote call raises any exception, `get_gemini_response`
catches it and returns normally (the outcome below is its ordinary return
value, not an escalated exception): the Python return value is `None` (no
text payload) and the non-empty message `"An error occurred: " ++ e` is
shown to the user. -/
theorem C4_remote_exception_caught
    (env : Env) (code k e : String) (config : GenerationConfig)
    (hk : env.google_api_key = some k) (hne : k ≠ "")
    (hc : env.configure_error = none)
    (hr : env.generate_content (generate_prompt code) config safety_settings
            = Except.error e) :
    (get_gemini_response env code config).ret = none ∧
    ("An error occurred: " ++ e) ∈ (get_gemini_response env code config).errorsShown ∧
    0 < ("An error occurred: " ++ e).length := by
  refine ⟨?_, ?_, ?_⟩
  · simp [get_gemini_response, load_models, hk, hne, hc, hr]
  · simp [get_gemini_response, load_models, hk, hne, hc, hr]
  · rw [String.length_append]
    have h19 : "An error occurred: ".length = 19 := rfl
    omega

/-- Witness for C4 at the concrete raising environment. -/
theorem C4_remote_exception_caught_witness :
    (env_raises.google_api_key = some "k" ∧ ("k" : String) ≠ "" ∧
     env_raises.configure_error = none ∧
     env_raises.generate_content (generate_prompt "x") cfg_low safety_settings
       = Except.error "boom") ∧
    ((get_gemini_response env_raises "x" cfg_low).ret = none ∧
     ("An error occurred: " ++ "boom")
        ∈ (get_gemini_response env_raises "x" cfg_low).errorsShown ∧
     0 < ("An error occurred: " ++ "boom").length) :=
  ⟨⟨rfl, by simp, rfl, rfl⟩,
   C4_remote_exception_caught env_raises "x" "k" "boom" cfg_low rfl (by simp) rfl rfl⟩

/-- C5: If the remote call succeeds with payload `t`, the text returned by
`get_gemini_response` is exactly `t`, unchanged. -/
theorem C5_success_payload_unmodified
    (env : Env) (code k t : String) (config : GenerationConfig)
    (hk : env.google_api_key = some k) (hne : k ≠ "")
    (hc : env.configure_error = none)
    (hr : env.generate_content (generate_prompt code) config safety_settings
            = Except.ok t) :
    (get_gemini_response env code config).ret = some t := by
  simp [get_gemini_response, load_models, hk, hne, hc, hr]

/-- Witness for C5 at the concrete succeeding environment. -/
theorem C5_success_payload_unmodified_witness :
    (env_ok.google_api_key = some "k" ∧ ("k" : String) ≠ "" ∧
     env_ok.configure_error = none ∧
     env_ok.generate_content (generate_prompt "x") cfg_low safety_settings
       = Except.ok "payload") ∧
    (get_gemini_response env_ok "x" cfg_low).ret = some "payload" :=
  ⟨⟨rfl, by simp, rfl, rfl⟩,
   C5_success_payload_unmodified env_ok "x" "k" "payload" cfg_low rfl (by simp) rfl rfl⟩

end CodeCommentGen

namespace CodeCommentGen

/-- Every remote call issued by `get_gemini_response` carries the fixed
`safety_settings` policy: the call list is empty or the singleton call
built with `safety_settings`. -/
theorem safety_of_mem_remoteCalls
    (env : Env) (code : String) (config : GenerationConfig) :
    ∀ call ∈ (get_gemini_response env code config).remoteCalls,
      call.safety = safety_settings := by
  intro call h
  cases hkey : env.google_api_key with
  | none =>
      simp [get_gemini_response, load_models, hkey] at h
  | some k =>
      by_cases hne : k = ""
      · simp [get_gemini_response, load_models, hkey, hne] at h
      · cases hconf : env.configure_error with
        | some e =>
            simp [get_gemini_response, load_models, hkey, hne, hconf] at h
        | none =>
            cases hr : env.generate_content (generate_prompt code) config safety_settings with
            | ok t =>
                simp [get_gemini_response, load_models, hkey, hne, hconf, hr] at h
                rw [h]
            | error e =>
                simp [get_gemini_response, load_models, hkey, hne, hconf, hr] at h
                rw [h]

/-- C7: Every remote generation call is issued with the fixed
content-safety policy in which all four harm categories are mapped to
`BLOCK_NONE`. -/
theorem C7_every_remote_call_blocks_nothing
    (env : Env) (code : String) (config : GenerationConfig) (call : RemoteCall)
    (h : call ∈ (get_gemini_response env code config).remoteCalls) :
    call.safety = safety_settings ∧
    ∀ c : HarmCategory, (c, HarmBlockThreshold.blockNone) ∈ call.safety := by
  have hs := safety_of_mem_remoteCalls env code config call h
  refine ⟨hs, ?_⟩
  intro c
  rw [hs]
  cases c <;> simp [safety_settings]

/-- The single remote call issued on a successful run with snippet `"x"`
and a Low-creativity configuration. -/
def call_x : RemoteCall :=
  { prompt := generate_prompt "x"
  , generation_config := cfg_low
  , safety := safety_settings }

/-- Witness for C7 at the concrete succeeding environment. -/
theorem C7_every_remote_call_blocks_nothing_witness :
    (call_x ∈ (get_gemini_response env_ok "x" cfg_low).remoteCalls) ∧
    (call_x.safety = safety_settings ∧
     ∀ c : HarmCategory, (c, HarmBlockThreshold.blockNone) ∈ call_x.safety) :=
  ⟨List.Mem.head _,
   C7_every_remote_call_blocks_nothing env_ok "x" cfg_low call_x (List.Mem.head _)⟩

/-- C8: One button activation makes exactly one attempt at the remote
generation: the progress loop of `main` invokes `get_gemini_response`
exactly once (at step 98), with no retry on failure, and the press result
is that single invocation's return value. -/
theorem C8_exactly_one_attempt_per_press
    (env : Env) (m : Mode) (typed creative_control : String) :
    (main_press env m typed creative_control).attempts = 1 ∧
    (main_press env m typed creative_control).outcome =
      some (get_gemini_response env (user_input typed)
              (generative_config creative_control)) :=
  ⟨rfl, rfl⟩

end CodeCommentGen

namespace CodeCommentGen

/-- C6 (counter-evidence): the source has no second template.  Both the
"Generate Code Comments" branch and the "Explain Line by Line" branch of
`main` call `get_gemini_response(user_input_text, config)`, so for the
snippet `"print(1)"` the prompt submitted by the explain action is
identical to the prompt submitted by the comment action, and the whole
call outcome of a press is identical across the two modes. -/
theorem C6_explain_prompt_equals_comment_prompt :
    prompt_submitted Mode.explain "print(1)" =
      prompt_submitted Mode.comment "print(1)" ∧
    (main_press env_ok Mode.explain "print(1)" "Low").outcome =
      (main_press env_ok Mode.comment "print(1)" "Low").outcome :=
  ⟨rfl, rfl⟩

/-- C9: When the model fails to load (missing or empty credential),
`get_gemini_response` returns the non-None string `model_not_loaded_msg`
rather than the `None` used for remote-call failures, so `main` renders
this message in the response area exactly as it renders a successful
generation result (same subheader, text written unchanged). -/
theorem C9_load_failure_message_rendered_like_success
    (env : Env) (typed creative_control : String)
    (h : env.google_api_key = none ∨ env.google_api_key = some "") :
    (get_gemini_response env (user_input typed)
        (generative_config creative_control)).ret = some model_not_loaded_msg ∧
    (main_press env Mode.comment typed creative_control).rendered =
      some ("The Response is", model_not_loaded_msg) ∧
    (∀ t : String, render Mode.comment (some t) = some ("The Response is", t)) := by
  have hret : (get_gemini_response env (user_input typed)
      (generative_config creative_control)).ret = some model_not_loaded_msg := by
    rcases h with h | h <;> simp [get_gemini_response, load_models, h]
  refine ⟨hret, ?_, fun t => rfl⟩
  have hrend : (main_press env Mode.comment typed creative_control).rendered
      = render Mode.comment
          (get_gemini_response env (user_input typed)
            (generative_config creative_control)).ret := rfl
  rw [hrend, hret]
  rfl

/-- Witness for C9 at the concrete environment with no key. -/
theorem C9_load_failure_message_rendered_like_success_witness :
    (env_no_key.google_api_key = none ∨ env_no_key.google_api_key = some "") ∧
    ((get_gemini_response env_no_key (user_input "x")
        (generative_config "Low")).ret = some model_not_loaded_msg ∧
     (main_press env_no_key Mode.comment "x" "Low").rendered =
       some ("The Response is", model_not_loaded_msg) ∧
     (∀ t : String, render Mode.comment (some t) = some ("The Response is", t))) :=
  ⟨Or.inl rfl,
   C9_load_failure_message_rendered_like_success env_no_key "x" "Low" (Or.inl rfl)⟩

/-- C10: Every snippet `main` passes into `get_gemini_response` comes from
`user_input` and hence has length at most 2000 characters, the
`max_chars` bound of the text-area input control. -/
theorem C10_snippet_bounded_by_max_chars
    (env : Env) (m : Mode) (typed creative_control : String) :
    (main_press env m typed creative_control).outcome =
      some (get_gemini_response env (main_press env m typed creative_control).snippet
              (generative_config creative_control)) ∧
    (main_press env m typed creative_control).snippet.length ≤ 2000 := by
  constructor
  · rfl
  · show (typed.data.take 2000).length ≤ 2000
    exact List.length_take_le 2000 typed.data

end CodeCommentGen
